import Mathlib

/-!
Shallow embedding of the CodeBot notebook (`src/CoadBot.ipynb`).

The notebook defines two functions:

* `instantiate_huggingface_model(model_name, quantization_config=None,
  device_map="auto", use_cache=True, trust_remote_code=None,
  pad_token=None, padding_side="left")` — builds a default
  `BitsAndBytesConfig(load_in_8bit=True, low_cpu_mem_usage=True)` when
  `quantization_config` is `None`, calls
  `AutoModelForCausalLM.from_pretrained` and `AutoTokenizer.from_pretrained`
  on `model_name`, sets the tokenizer's pad token (to the supplied
  `pad_token`, else to `tokenizer.eos_token`) and padding side, and returns
  `(model, tokenizer)`.

* `generate_text(pipeline, prompt)` — evaluates
  `result = pipeline(prompt)[0]['generated_text']` and then falls off the
  end of the function body, so in Python it returns `None`.

The external HuggingFace library is modelled by an oracle environment
`HFEnv`: it decides which load calls raise, and what special tokens a
pretrained tokenizer ships with.  A loaded `Model` records the exact
arguments of the `from_pretrained` call that constructed it, so claims
about which values are forwarded to the library are statements about that
record.  Python exceptions are modelled with `Except PyErr`; Python `None`
for an optional string is `Option.none`.
-/

/-- A Python exception escaping one of the calls in the notebook. -/
inductive PyErr where
  /-- an exception raised inside the external library (model loading,
  tokenizer loading, or generation), carrying its message -/
  | libError (msg : String)
  /-- Python `IndexError` from indexing `[0]` into an empty list -/
  | indexError
  /-- Python `KeyError` from a missing dictionary key -/
  | keyError (key : String)
deriving DecidableEq

/-- The fields of `transformers.BitsAndBytesConfig` that the notebook
touches.  Fields not passed to the constructor default to `false`. -/
structure BitsAndBytesConfig where
  load_in_8bit : Bool
  load_in_4bit : Bool
  low_cpu_mem_usage : Bool
deriving DecidableEq

/-- The argument list of one `AutoModelForCausalLM.from_pretrained` call,
exactly as the notebook supplies it. -/
structure ModelLoadCall where
  model_name : String
  quantization_config : BitsAndBytesConfig
  device_map : String
  use_cache : Bool
  trust_remote_code : Option Bool
deriving DecidableEq

/-- The argument list of one `AutoTokenizer.from_pretrained` call. -/
structure TokenizerLoadCall where
  model_name : String
  trust_remote_code : Option Bool
deriving DecidableEq

/-- A loaded model handle.  The library constructs it from the arguments of
the `from_pretrained` call, so the handle records that call. -/
structure Model where
  call : ModelLoadCall
deriving DecidableEq

/-- A tokenizer handle: the call that constructed it plus its mutable
special-token state.  In HuggingFace both `eos_token` and `pad_token` are
optional (`None` when the checkpoint defines no such token). -/
structure Tokenizer where
  call : TokenizerLoadCall
  eos_token : Option String
  pad_token : Option String
  padding_side : String
deriving DecidableEq

/-- Oracle for the external HuggingFace library: which load calls raise,
and the special-token state a freshly loaded tokenizer starts with. -/
structure HFEnv where
  modelLoadError : ModelLoadCall → Option PyErr
  tokenizerLoadError : TokenizerLoadCall → Option PyErr
  pretrainedEos : String → Option String
  pretrainedPad : String → Option String
  pretrainedPaddingSide : String → String

/-- `AutoModelForCausalLM.from_pretrained`: raises when the oracle says so,
otherwise returns a model constructed from exactly this call. -/
def AutoModelForCausalLM.from_pretrained (env : HFEnv) (c : ModelLoadCall) :
    Except PyErr Model :=
  match env.modelLoadError c with
  | some e => .error e
  | none => .ok ⟨c⟩

/-- `AutoTokenizer.from_pretrained`: raises when the oracle says so,
otherwise returns the checkpoint's tokenizer for this identifier. -/
def AutoTokenizer.from_pretrained (env : HFEnv) (c : TokenizerLoadCall) :
    Except PyErr Tokenizer :=
  match env.tokenizerLoadError c with
  | some e => .error e
  | none =>
    .ok ⟨c, env.pretrainedEos c.model_name, env.pretrainedPad c.model_name,
         env.pretrainedPaddingSide c.model_name⟩

/-- The default quantization configuration the notebook builds when
`quantization_config is None`:
`BitsAndBytesConfig(load_in_8bit=True, low_cpu_mem_usage=True)`. -/
def defaultQuantizationConfig : BitsAndBytesConfig :=
  { load_in_8bit := true, load_in_4bit := false, low_cpu_mem_usage := true }

/-- Embedding of `instantiate_huggingface_model`.  Arguments appear in the
notebook's order; the Python defaults are `quantization_config=None`,
`device_map="auto"`, `use_cache=True`, `trust_remote_code=None`,
`pad_token=None`, `padding_side="left"`. -/
def instantiate_huggingface_model (env : HFEnv) (model_name : String)
    (quantization_config : Option BitsAndBytesConfig) (device_map : String)
    (use_cache : Bool) (trust_remote_code : Option Bool)
    (pad_token : Option String) (padding_side : String) :
    Except PyErr (Model × Tokenizer) :=
  match AutoModelForCausalLM.from_pretrained env
      ⟨model_name, quantization_config.getD defaultQuantizationConfig,
       device_map, use_cache, trust_remote_code⟩ with
  | .error e => .error e
  | .ok model =>
    match AutoTokenizer.from_pretrained env ⟨model_name, trust_remote_code⟩ with
    | .error e => .error e
    | .ok tokenizer =>
      .ok (model,
        { tokenizer with
            pad_token :=
              match pad_token with
              | some p => some p
              | none => tokenizer.eos_token,
            padding_side := padding_side })

/-- A pipeline result element is a Python dict; the notebook only reads the
key `'generated_text'`.  A dict is a key-value association list. -/
abbrev GenRecord := List (String × String)

/-- A generation pipeline: a prompt either raises a library exception or
yields the list of generation records. -/
abbrev Pipeline := String → Except PyErr (List GenRecord)

/-- What `generate_text` does with the value of its single pipeline call:
index `[0]` (IndexError on an empty list), look up `'generated_text'`
(KeyError when absent), bind the string to the local `result`, and then
return `None`, since the Python function body has no `return` statement. -/
def processPipelineResult (r : Except PyErr (List GenRecord)) :
    Except PyErr (Option String) :=
  match r with
  | .error e => .error e
  | .ok [] => .error .indexError
  | .ok (rec0 :: _) =>
    match rec0.lookup "generated_text" with
    | none => .error (.keyError "generated_text")
    | some _ => .ok none

/-- Embedding of `generate_text(pipeline, prompt)`:
`result = pipeline(prompt)[0]['generated_text']` and implicit `return None`. -/
def generate_text (pipeline : Pipeline) (prompt : String) :
    Except PyErr (Option String) :=
  processPipelineResult (pipeline prompt)

/-- A benign library environment: every load succeeds, the checkpoint's
tokenizer has eos token `"</s>"`, no pad token, right padding. -/
def okEnv : HFEnv where
  modelLoadError := fun _ => none
  tokenizerLoadError := fun _ => none
  pretrainedEos := fun _ => some "</s>"
  pretrainedPad := fun _ => none
  pretrainedPaddingSide := fun _ => "right"

/-- An environment whose tokenizer checkpoint defines no eos token. -/
def noEosEnv : HFEnv where
  modelLoadError := fun _ => none
  tokenizerLoadError := fun _ => none
  pretrainedEos := fun _ => none
  pretrainedPad := fun _ => none
  pretrainedPaddingSide := fun _ => "right"

/-- An environment in which model loading raises a not-found error. -/
def modelErrEnv : HFEnv where
  modelLoadError := fun _ => some (.libError "RepositoryNotFoundError")
  tokenizerLoadError := fun _ => none
  pretrainedEos := fun _ => some "</s>"
  pretrainedPad := fun _ => none
  pretrainedPaddingSide := fun _ => "right"

/-- An environment in which tokenizer loading raises. -/
def tokenizerErrEnv : HFEnv where
  modelLoadError := fun _ => none
  tokenizerLoadError := fun _ => some (.libError "OSError")
  pretrainedEos := fun _ => some "</s>"
  pretrainedPad := fun _ => none
  pretrainedPaddingSide := fun _ => "right"

/-- A concrete pipeline producing one record with a generated completion. -/
def onePipeline : Pipeline := fun _ => .ok [[("generated_text", "hello world")]]

/-- A concrete pipeline producing the empty result list. -/
def emptyPipeline : Pipeline := fun _ => .ok []

/-- A concrete pipeline whose first record lacks `'generated_text'`. -/
def noKeyPipeline : Pipeline := fun _ => .ok [[("score", "1")]]

/-- A concrete pipeline that raises a library exception. -/
def raisingPipeline : Pipeline := fun _ => .error (.libError "CUDA out of memory")

/-- Complete characterization of `instantiate_huggingface_model` in terms
of the library oracle: the model-loading call receives the resolved
quantization configuration and the caller's other options unchanged; on
success the returned tokenizer carries the pad token and padding side the
function assigned. -/
lemma instantiate_spec (env : HFEnv) (mn : String)
    (qcOpt : Option BitsAndBytesConfig) (dm : String) (uc : Bool)
    (trc : Option Bool) (pt : Option String) (ps : String) :
    instantiate_huggingface_model env mn qcOpt dm uc trc pt ps =
      match env.modelLoadError
          ⟨mn, qcOpt.getD defaultQuantizationConfig, dm, uc, trc⟩ with
      | some e => .error e
      | none =>
        match env.tokenizerLoadError ⟨mn, trc⟩ with
        | some e => .error e
        | none =>
          .ok (⟨⟨mn, qcOpt.getD defaultQuantizationConfig, dm, uc, trc⟩⟩,
               ⟨⟨mn, trc⟩, env.pretrainedEos mn,
                (match pt with
                 | some p => some p
                 | none => env.pretrainedEos mn), ps⟩) := by
  unfold instantiate_huggingface_model AutoModelForCausalLM.from_pretrained
    AutoTokenizer.from_pretrained
  cases env.modelLoadError ⟨mn, qcOpt.getD defaultQuantizationConfig, dm, uc, trc⟩ <;>
    cases env.tokenizerLoadError ⟨mn, trc⟩ <;> cases pt <;> rfl

/-- Shape of every successful `instantiate_huggingface_model` call: the
model records the forwarded arguments and the tokenizer carries the
assigned pad token and padding side. -/
lemma instantiate_ok_elim (env : HFEnv) (mn : String)
    (qcOpt : Option BitsAndBytesConfig) (dm : String) (uc : Bool)
    (trc : Option Bool) (pt : Option String) (ps : String)
    (m : Model) (t : Tokenizer)
    (h : instantiate_huggingface_model env mn qcOpt dm uc trc pt ps = .ok (m, t)) :
    m = ⟨⟨mn, qcOpt.getD defaultQuantizationConfig, dm, uc, trc⟩⟩ ∧
    t = ⟨⟨mn, trc⟩, env.pretrainedEos mn,
         pt.elim (env.pretrainedEos mn) some, ps⟩ := by
  rw [instantiate_spec] at h
  cases pt <;>
  · split at h
    · exact Except.noConfusion h
    · split at h
      · exact Except.noConfusion h
      · simp only [Except.ok.injEq, Prod.mk.injEq] at h
        exact ⟨h.1.symm, h.2.symm⟩

/-- Concrete handles produced by loading from `okEnv` with the notebook's
actual call: model name `"Deci/DeciCoder-6B"`, `trust_remote_code=True`,
everything else left at its default. -/
def demoModel : Model :=
  ⟨⟨"Deci/DeciCoder-6B", defaultQuantizationConfig, "auto", true, some true⟩⟩

/-- The tokenizer returned by that same load from `okEnv`. -/
def demoTokenizer : Tokenizer :=
  ⟨⟨"Deci/DeciCoder-6B", some true⟩, some "</s>", some "</s>", "left"⟩

/-- A caller-supplied quantization configuration distinct from the default. -/
def customQuantization : BitsAndBytesConfig :=
  { load_in_8bit := false, load_in_4bit := true, low_cpu_mem_usage := false }

/-- Model handle from a load that supplies every option explicitly. -/
def customModel : Model :=
  ⟨⟨"Deci/DeciCoder-6B", customQuantization, "cuda:0", false, none⟩⟩

/-- Tokenizer handle from that same fully explicit load. -/
def customTokenizer : Tokenizer :=
  ⟨⟨"Deci/DeciCoder-6B", none⟩, some "</s>", some "[PAD]", "right"⟩

/-- C1: `generate_text` is claimed to return the first generated completion
as a string; in fact its Python body has no `return` statement, so even on
a pipeline whose first record carries the completion `"hello world"` it
returns `None`, never the completion. -/
theorem generate_text_drops_result :
    generate_text onePipeline "def f():" = .ok none ∧
    generate_text onePipeline "def f():" ≠ .ok (some "hello world") := by
  refine ⟨rfl, ?_⟩
  intro h
  simp [generate_text, onePipeline, processPipelineResult] at h

/-- C2: omitting `pad_token` makes the returned tokenizer's pad token equal
its eos token; supplying one makes the pad token equal the supplied value. -/
theorem pad_token_default_and_override (env : HFEnv) (mn : String)
    (qcOpt : Option BitsAndBytesConfig) (dm : String) (uc : Bool)
    (trc : Option Bool) (ps : String) :
    (∀ m t, instantiate_huggingface_model env mn qcOpt dm uc trc none ps = .ok (m, t) →
        t.pad_token = t.eos_token) ∧
    (∀ p m t,
        instantiate_huggingface_model env mn qcOpt dm uc trc (some p) ps = .ok (m, t) →
        t.pad_token = some p) := by
  constructor
  · intro m t h
    obtain ⟨hm, ht⟩ := instantiate_ok_elim _ _ _ _ _ _ _ _ _ _ h
    subst ht
    rfl
  · intro p m t h
    obtain ⟨hm, ht⟩ := instantiate_ok_elim _ _ _ _ _ _ _ _ _ _ h
    subst ht
    rfl

/-- C2 witness: evaluated at `okEnv` with the notebook's load call. -/
theorem pad_token_default_and_override_witness :
    demoTokenizer.pad_token = demoTokenizer.eos_token :=
  (pad_token_default_and_override okEnv "Deci/DeciCoder-6B" none "auto" true
      (some true) "left").1 demoModel demoTokenizer rfl

/-- C3: omitting `quantization_config` forwards the default
`BitsAndBytesConfig(load_in_8bit=True, low_cpu_mem_usage=True)` to the
model-loading call; supplying one forwards it instead. -/
theorem quantization_default_and_forwarding (env : HFEnv) (mn dm : String)
    (uc : Bool) (trc : Option Bool) (pt : Option String) (ps : String) :
    (∀ m t, instantiate_huggingface_model env mn none dm uc trc pt ps = .ok (m, t) →
        m.call.quantization_config =
          { load_in_8bit := true, load_in_4bit := false, low_cpu_mem_usage := true }) ∧
    (∀ qc m t,
        instantiate_huggingface_model env mn (some qc) dm uc trc pt ps = .ok (m, t) →
        m.call.quantization_config = qc) := by
  constructor
  · intro m t h
    obtain ⟨hm, ht⟩ := instantiate_ok_elim _ _ _ _ _ _ _ _ _ _ h
    subst hm
    rfl
  · intro qc m t h
    obtain ⟨hm, ht⟩ := instantiate_ok_elim _ _ _ _ _ _ _ _ _ _ h
    subst hm
    rfl

/-- C3 witness: the default-configuration branch evaluated at `okEnv`. -/
theorem quantization_default_and_forwarding_witness :
    demoModel.call.quantization_config =
      { load_in_8bit := true, load_in_4bit := false, low_cpu_mem_usage := true } :=
  (quantization_default_and_forwarding okEnv "Deci/DeciCoder-6B" "auto" true
      (some true) none "left").1 demoModel demoTokenizer rfl

/-- C4: neither function handles errors locally: an exception raised by
model loading, tokenizer loading, or the generation pipeline is returned
to the caller as exactly the same error. -/
theorem errors_propagate_unmodified (env : HFEnv) (mn : String)
    (qcOpt : Option BitsAndBytesConfig) (dm : String) (uc : Bool)
    (trc : Option Bool) (pt : Option String) (ps : String)
    (p : Pipeline) (prompt : String) :
    (∀ e, env.modelLoadError
          ⟨mn, qcOpt.getD defaultQuantizationConfig, dm, uc, trc⟩ = some e →
        instantiate_huggingface_model env mn qcOpt dm uc trc pt ps = .error e) ∧
    (∀ e, env.modelLoadError
          ⟨mn, qcOpt.getD defaultQuantizationConfig, dm, uc, trc⟩ = none →
        env.tokenizerLoadError ⟨mn, trc⟩ = some e →
        instantiate_huggingface_model env mn qcOpt dm uc trc pt ps = .error e) ∧
    (∀ e, p prompt = .error e → generate_text p prompt = .error e) := by
  refine ⟨?_, ?_, ?_⟩
  · intro e he
    rw [instantiate_spec, he]
  · intro e hm ht
    rw [instantiate_spec, hm, ht]
  · intro e he
    unfold generate_text
    rw [he]
    rfl

/-- C4 witness: a not-found model error, a tokenizer load error and a
generation error each surface unmodified. -/
theorem errors_propagate_unmodified_witness :
    instantiate_huggingface_model modelErrEnv "no/such-model" none "auto" true
        none none "left" = .error (.libError "RepositoryNotFoundError") ∧
    instantiate_huggingface_model tokenizerErrEnv "Deci/DeciCoder-6B" none "auto"
        true none none "left" = .error (.libError "OSError") ∧
    generate_text raisingPipeline "prompt" = .error (.libError "CUDA out of memory") :=
  ⟨(errors_propagate_unmodified modelErrEnv "no/such-model" none "auto" true none
      none "left" raisingPipeline "prompt").1 (.libError "RepositoryNotFoundError") rfl,
   (errors_propagate_unmodified tokenizerErrEnv "Deci/DeciCoder-6B" none "auto" true
      none none "left" raisingPipeline "prompt").2.1 (.libError "OSError") rfl rfl,
   (errors_propagate_unmodified okEnv "x" none "auto" true none none "left"
      raisingPipeline "prompt").2.2 (.libError "CUDA out of memory") rfl⟩

/-- C6: on success, both the model and the tokenizer were constructed from
the same model identifier the caller passed in. -/
theorem loader_uses_same_identifier (env : HFEnv) (mn : String)
    (qcOpt : Option BitsAndBytesConfig) (dm : String) (uc : Bool)
    (trc : Option Bool) (pt : Option String) (ps : String)
    (m : Model) (t : Tokenizer)
    (h : instantiate_huggingface_model env mn qcOpt dm uc trc pt ps = .ok (m, t)) :
    m.call.model_name = mn ∧ t.call.model_name = mn := by
  obtain ⟨hm, ht⟩ := instantiate_ok_elim _ _ _ _ _ _ _ _ _ _ h
  subst hm
  subst ht
  exact ⟨rfl, rfl⟩

/-- C6 witness: evaluated at `okEnv` with the notebook's load call. -/
theorem loader_uses_same_identifier_witness :
    demoModel.call.model_name = "Deci/DeciCoder-6B" ∧
    demoTokenizer.call.model_name = "Deci/DeciCoder-6B" :=
  loader_uses_same_identifier okEnv "Deci/DeciCoder-6B" none "auto" true
    (some true) none "left" demoModel demoTokenizer rfl

/-- C7: a caller-supplied quantization configuration, device map, cache
flag and trust flag reach the model-loading call with exactly the supplied
values, no field modified. -/
theorem supplied_config_forwarded_unchanged (env : HFEnv) (mn : String)
    (qc : BitsAndBytesConfig) (dm : String) (uc : Bool) (trc : Option Bool)
    (pt : Option String) (ps : String) (m : Model) (t : Tokenizer)
    (h : instantiate_huggingface_model env mn (some qc) dm uc trc pt ps = .ok (m, t)) :
    m.call.quantization_config = qc ∧ m.call.device_map = dm ∧
    m.call.use_cache = uc ∧ m.call.trust_remote_code = trc := by
  obtain ⟨hm, ht⟩ := instantiate_ok_elim _ _ _ _ _ _ _ _ _ _ h
  subst hm
  exact ⟨rfl, rfl, rfl, rfl⟩

/-- C7 witness: a fully explicit load with a non-default configuration. -/
theorem supplied_config_forwarded_unchanged_witness :
    customModel.call.quantization_config = customQuantization ∧
    customModel.call.device_map = "cuda:0" ∧
    customModel.call.use_cache = false ∧
    customModel.call.trust_remote_code = none :=
  supplied_config_forwarded_unchanged okEnv "Deci/DeciCoder-6B" customQuantization
    "cuda:0" false none (some "[PAD]") "right" customModel customTokenizer rfl

/-- C8: `generate_text` unconditionally indexes `[0]` and
`['generated_text']`: an empty pipeline result raises IndexError, a first
record without the key raises KeyError, and only a non-empty result whose
first record has the key lets the call return (with Python `None`). -/
theorem generate_text_indexing_totality (p : Pipeline) (prompt : String) :
    (p prompt = .ok [] → generate_text p prompt = .error .indexError) ∧
    (∀ r rest, p prompt = .ok (r :: rest) → r.lookup "generated_text" = none →
        generate_text p prompt = .error (.keyError "generated_text")) ∧
    (∀ r rest s, p prompt = .ok (r :: rest) → r.lookup "generated_text" = some s →
        generate_text p prompt = .ok none) := by
  refine ⟨?_, ?_, ?_⟩
  · intro h
    unfold generate_text
    rw [h]
    rfl
  · intro r rest h hl
    unfold generate_text
    rw [h]
    simp [processPipelineResult, hl]
  · intro r rest s h hl
    unfold generate_text
    rw [h]
    simp [processPipelineResult, hl]

/-- C8 witness: the three behaviors on concrete pipelines. -/
theorem generate_text_indexing_totality_witness :
    generate_text emptyPipeline "p" = .error .indexError ∧
    generate_text noKeyPipeline "p" = .error (.keyError "generated_text") ∧
    generate_text onePipeline "p" = .ok none :=
  ⟨(generate_text_indexing_totality emptyPipeline "p").1 rfl,
   (generate_text_indexing_totality noKeyPipeline "p").2.1
      [("score", "1")] [] rfl rfl,
   (generate_text_indexing_totality onePipeline "p").2.2
      [("generated_text", "hello world")] [] "hello world" rfl rfl⟩

/-- Model handle loaded from `noEosEnv`. -/
def noEosModel : Model := ⟨⟨"m", defaultQuantizationConfig, "auto", true, none⟩⟩

/-- Tokenizer loaded from `noEosEnv`: no eos token, hence pad token `None`. -/
def noEosTokenizer : Tokenizer := ⟨⟨"m", none⟩, none, none, "left"⟩

/-- C9 counterexample: a successful load with `pad_token` omitted from a
checkpoint whose tokenizer has no eos token leaves the returned
tokenizer's pad token `None`, contradicting the claimed non-None pad
token. -/
theorem successful_load_with_none_pad_token :
    instantiate_huggingface_model noEosEnv "m" none "auto" true none none "left"
        = .ok (noEosModel, noEosTokenizer) ∧
    noEosTokenizer.pad_token = none :=
  ⟨rfl, rfl⟩

/-- C9 amended: every successful load sets the returned tokenizer's
padding side to exactly the `padding_side` argument, and its pad token to
the supplied `pad_token` when one is given and to the tokenizer's own eos
token otherwise (so the pad token is `None` exactly when no pad token is
supplied and the tokenizer has no eos token). -/
theorem pad_token_and_padding_side_after_load (env : HFEnv) (mn : String)
    (qcOpt : Option BitsAndBytesConfig) (dm : String) (uc : Bool)
    (trc : Option Bool) (pt : Option String) (ps : String)
    (m : Model) (t : Tokenizer)
    (h : instantiate_huggingface_model env mn qcOpt dm uc trc pt ps = .ok (m, t)) :
    t.padding_side = ps ∧ t.pad_token = pt.elim t.eos_token some := by
  obtain ⟨hm, ht⟩ := instantiate_ok_elim _ _ _ _ _ _ _ _ _ _ h
  subst ht
  refine ⟨rfl, ?_⟩
  cases pt <;> rfl

/-- C9 amended witness: evaluated at `okEnv` with the notebook's call. -/
theorem pad_token_and_padding_side_after_load_witness :
    demoTokenizer.padding_side = "left" ∧
    demoTokenizer.pad_token = (none : Option String).elim demoTokenizer.eos_token some :=
  pad_token_and_padding_side_after_load okEnv "Deci/DeciCoder-6B" none "auto" true
    (some true) none "left" demoModel demoTokenizer rfl

/-- A second pipeline, extensionally equal to `onePipeline`. -/
def onePipelineCopy : Pipeline := fun _ => .ok [[("generated_text", "hello world")]]

/-- C10: `generate_text` performs no input validation: its result is a
fixed function of the single pipeline call at the unchanged prompt, for
every prompt including the empty string; two pipelines agreeing at the
prompt give the same result. -/
theorem generate_text_no_input_validation :
    (∀ (p q : Pipeline) (prompt : String), p prompt = q prompt →
        generate_text p prompt = generate_text q prompt) ∧
    (∀ (p : Pipeline) (prompt : String),
        generate_text p prompt = processPipelineResult (p prompt)) := by
  constructor
  · intro p q prompt h
    unfold generate_text
    rw [h]
  · intro p prompt
    rfl

/-- C10 witness: exercised at the empty prompt. -/
theorem generate_text_no_input_validation_witness :
    generate_text onePipeline "" = generate_text onePipelineCopy "" ∧
    generate_text onePipeline "" = processPipelineResult (onePipeline "") :=
  ⟨generate_text_no_input_validation.1 onePipeline onePipelineCopy "" rfl,
   generate_text_no_input_validation.2 onePipeline ""⟩
